import Mathlib

/-!
Verification development for the numerai-agentic-ai signal pipeline.

The development shallowly embeds the two core modules of the repository:

* `src/signals/signal_generator.py` — class `NumeraiSignalGenerator`
  (composite-signal calculation, signal table generation, validation, export);
* `src/data/perplexity_devkit.py` — class `PerplexityNumeraiDevKit`
  (batched market-news fetching, SEC-filing extraction, structured metric
  extraction, and the performance/telemetry state `perf_metrics`).

Modelling conventions:

* Python floats are modelled by real numbers where the arithmetic matters
  (the composite-signal calculation uses `Real.exp` for `np.exp`) and by
  rationals where the program only compares and stores values
  (validation, telemetry), keeping those parts fully executable.
* A possibly-NaN/null float cell in a pandas column is modelled by
  `Option` — `none` plays the role of `NaN`; pandas `Series.between`
  evaluates to `False` on `NaN`, which the model mirrors.
* A Python runtime exception raised while resolving dynamic data is
  modelled with `Except String`; `try/except` blocks become matches on
  the `Except` value.
* Python `dict`s with insertion order are modelled by association lists,
  assignment `d[k] = v` by an upsert that keeps the first-insertion
  position of an existing key.
* Python string slicing `s[:n]` is modelled by `pySlice`, taking the
  first `n` characters.
-/

namespace Numerai

/-! ### Signal generator: `src/signals/signal_generator.py` -/

/-- Model of `np.clip(x, lo, hi)`: equivalent to
`np.minimum(hi, np.maximum(x, lo))`. -/
def np_clip (x lo hi : ℝ) : ℝ := min hi (max x lo)

/-- Sentiment normalization from `_calculate_composite_signal`:
`sentiment_score = (sentiment + 1) / 2`. -/
noncomputable def sentiment_score (sentiment : ℝ) : ℝ := (sentiment + 1) / 2

/-- PE normalization from `_calculate_composite_signal`:
`pe_score = 1 / (1 + np.exp((pe_ratio - 20) / 10))`. -/
noncomputable def pe_score (pe_ratio : ℝ) : ℝ :=
  1 / (1 + Real.exp ((pe_ratio - 20) / 10))

/-- Growth normalization from `_calculate_composite_signal`:
`growth_score = 1 / (1 + np.exp(-revenue_growth / 10))`. -/
noncomputable def growth_score (revenue_growth : ℝ) : ℝ :=
  1 / (1 + Real.exp (-revenue_growth / 10))

/-- Model of `NumeraiSignalGenerator._calculate_composite_signal`:
the weighted composite of the four normalized factors, clipped to [0, 1]
with `np.clip(composite, 0, 1)`. -/
noncomputable def calculate_composite_signal
    (sentiment pe_ratio revenue_growth data_quality : ℝ) : ℝ :=
  np_clip (0.30 * sentiment_score sentiment
    + 0.30 * pe_score pe_ratio
    + 0.30 * growth_score revenue_growth
    + 0.10 * data_quality) 0 1

/-- One row of the signals table built by `generate_from_analysis`
(dict with keys `ticker`, `signal`, `timestamp`). The score field is an
`Option` so the same row type can also carry a null/NaN cell of a pandas
column (the generator itself always stores `some` value). -/
structure SignalRow (α : Type) where
  ticker : String
  signal : Option α
  timestamp : String
deriving DecidableEq

/-- Fundamentals record for one ticker, as consumed by
`generate_from_analysis` (`metrics.get('pe_ratio', 20)`,
`metrics.get('revenue_growth_yoy', 0)`); absence of a field is modelled
by `none` and replaced by the `.get` default. -/
structure FundamentalsRec where
  pe_ratio : Option ℝ
  revenue_growth_yoy : Option ℝ

/-- SEC-insights record for one ticker, as consumed by
`generate_from_analysis` (`sec_data.get('quality_score', 0.5)`). -/
structure SecRec where
  quality_score : Option ℝ

/-- Model of `NumeraiSignalGenerator.generate_from_analysis`. The loop
`for ticker in news_sentiment.keys()` runs the body under
`try: ... except Exception: continue`; an exception raised while
resolving any of the three inputs for a ticker (dynamic lookups and
arithmetic over untyped provider data) is modelled by an `Except.error`
value, and makes the loop skip that ticker — `List.filterMap` returns
`none` for it, appending no row. -/
noncomputable def generate_from_analysis
    (news_sentiment : List (String × Except String ℝ))
    (fundamentals : String → Except String FundamentalsRec)
    (sec_insights : String → Except String SecRec)
    (now : String) : List (SignalRow ℝ) :=
  news_sentiment.filterMap fun p =>
    match p.2, fundamentals p.1, sec_insights p.1 with
    | .ok sentiment, .ok metrics, .ok sec_data =>
        some { ticker := p.1,
               signal := some (calculate_composite_signal sentiment
                 (metrics.pe_ratio.getD 20) (metrics.revenue_growth_yoy.getD 0)
                 (sec_data.quality_score.getD 0.5)),
               timestamp := now }
    | _, _, _ => none

/-- True when resolving a ticker's inputs raises (any of the three
sources yields an exception), i.e. when the `except` branch of the
generator loop fires for that ticker. -/
def resolution_failed (e : Except String ℝ) (f : Except String FundamentalsRec)
    (s : Except String SecRec) : Bool :=
  match e, f, s with
  | .ok _, .ok _, .ok _ => false
  | _, _, _ => true

lemma mem_generate_iff (ns : List (String × Except String ℝ))
    (fnd : String → Except String FundamentalsRec)
    (sec : String → Except String SecRec) (now : String) (r : SignalRow ℝ) :
    r ∈ generate_from_analysis ns fnd sec now ↔
      ∃ p ∈ ns, ∃ s m d, p.2 = .ok s ∧ fnd p.1 = .ok m ∧ sec p.1 = .ok d ∧
        r = { ticker := p.1,
              signal := some (calculate_composite_signal s (m.pe_ratio.getD 20)
                (m.revenue_growth_yoy.getD 0) (d.quality_score.getD 0.5)),
              timestamp := now } := by
  unfold generate_from_analysis
  rw [List.mem_filterMap]
  constructor
  · rintro ⟨p, hp, hsome⟩
    rcases he : p.2 with msg | s <;> rcases hf : fnd p.1 with msg2 | m <;>
      rcases hs : sec p.1 with msg3 | d <;>
      rw [he, hf, hs] at hsome <;> simp at hsome
    exact ⟨p, hp, s, m, d, he, hf, hs, hsome.symm⟩
  · rintro ⟨p, hp, s, m, d, he, hf, hs, hr⟩
    exact ⟨p, hp, by rw [he, hf, hs, hr]⟩

/-- Claim C2: an entity whose input resolution raises is omitted from
the output table entirely (no row at all, in particular no default or
zero score), while every entity whose resolution succeeds still gets a
row — the loop continues past failures. -/
theorem generator_skips_failed_entities
    (ns : List (String × Except String ℝ))
    (fnd : String → Except String FundamentalsRec)
    (sec : String → Except String SecRec)
    (now t : String) (e : Except String ℝ)
    (hnd : (ns.map Prod.fst).Nodup)
    (hmem : (t, e) ∈ ns)
    (hfail : resolution_failed e (fnd t) (sec t) = true) :
    t ∉ (generate_from_analysis ns fnd sec now).map SignalRow.ticker ∧
    ∀ t' e', (t', e') ∈ ns →
      resolution_failed e' (fnd t') (sec t') = false →
      t' ∈ (generate_from_analysis ns fnd sec now).map SignalRow.ticker := by
  constructor
  · intro hmt
    rw [List.mem_map] at hmt
    obtain ⟨r, hr, hrt⟩ := hmt
    rw [mem_generate_iff] at hr
    obtain ⟨p, hp, s, m, d, he, hf, hs, hrdef⟩ := hr
    have hpt : p.1 = t := by rw [hrdef] at hrt; exact hrt
    have hpe : p = (t, e) :=
      List.inj_on_of_nodup_map hnd hp hmem (by simpa using hpt)
    rw [hpe] at he hf hs
    simp only at he hf hs
    rw [he, hf, hs] at hfail
    simp [resolution_failed] at hfail
  · intro t' e' hmem' hok
    rcases he : e' with msg | s
    · rw [he] at hok; simp [resolution_failed] at hok
    rcases hf : fnd t' with msg2 | m
    · rw [he, hf] at hok; simp [resolution_failed] at hok
    rcases hs : sec t' with msg3 | d
    · rw [he, hf, hs] at hok; simp [resolution_failed] at hok
    rw [List.mem_map]
    refine ⟨{ ticker := t',
              signal := some (calculate_composite_signal s (m.pe_ratio.getD 20)
                (m.revenue_growth_yoy.getD 0) (d.quality_score.getD 0.5)),
              timestamp := now }, ?_, rfl⟩
    rw [mem_generate_iff]
    exact ⟨(t', e'), hmem', s, m, d, by simpa using he, by simpa using hf,
      by simpa using hs, rfl⟩

/-- Claim C1: for all finite real inputs, the composite score lies in
the closed interval [0, 1] (the final `np.clip(composite, 0, 1)` absorbs
any overshoot). -/
theorem composite_signal_in_unit_interval
    (sentiment pe_ratio revenue_growth data_quality : ℝ) :
    0 ≤ calculate_composite_signal sentiment pe_ratio revenue_growth data_quality ∧
    calculate_composite_signal sentiment pe_ratio revenue_growth data_quality ≤ 1 := by
  unfold calculate_composite_signal np_clip
  exact ⟨le_min zero_le_one (le_max_right _ _), min_le_left _ _⟩

/-- Concrete input data for exercising `generator_skips_failed_entities`:
one ticker whose sentiment lookup raises, one that resolves. -/
def c2_news : List (String × Except String ℝ) :=
  [("AAPL", .error "boom"), ("MSFT", .ok 0.5)]

/-- Concrete fundamentals source: every ticker resolves to an empty
metrics record (defaults apply). -/
def c2_fnd : String → Except String FundamentalsRec := fun _ => .ok ⟨none, none⟩

/-- Concrete SEC source: every ticker resolves to a record with no
quality score (default 0.5 applies). -/
def c2_sec : String → Except String SecRec := fun _ => .ok ⟨none⟩

theorem generator_skips_failed_entities_witness :
    "AAPL" ∉ (generate_from_analysis c2_news c2_fnd c2_sec "t0").map SignalRow.ticker ∧
    "MSFT" ∈ (generate_from_analysis c2_news c2_fnd c2_sec "t0").map SignalRow.ticker := by
  have h := generator_skips_failed_entities c2_news c2_fnd c2_sec "t0" "AAPL"
    (.error "boom") (by decide) (List.mem_cons_self _ _) rfl
  exact ⟨h.1, h.2 "MSFT" (.ok 0.5) (by simp [c2_news]) rfl⟩

/-! ### Signal validation and export -/

/-- Model of the per-cell check `self.signals['signal'].between(0, 1)`:
pandas `between` is inclusive on both ends and evaluates to `False` on a
`NaN` cell (modelled by `none`). Generic in the score field so it applies
both to real-valued generated tables and to executable rational tables. -/
def signal_between_01 {α : Type} [LinearOrderedField α] : Option α → Bool
  | none => false
  | some x => decide (0 ≤ x) && decide (x ≤ 1)

/-- Model of `NumeraiSignalGenerator.validate_signals`. The second
component is the error message passed to `logger.error` on the branch
that returned `False` (`none` on the success path, whose log line is
informational). The three checks run in source order: emptiness, range,
nulls. -/
def validate_signals {α : Type} [LinearOrderedField α]
    (signals : List (SignalRow α)) : Bool × Option String :=
  if signals.isEmpty then
    (false, some "No signals generated")
  else if !(signals.all fun r => signal_between_01 r.signal) then
    (false, some "Signals outside valid range [0, 1]")
  else if signals.any fun r => r.signal.isNone then
    (false, some "Null values in signals")
  else
    (true, none)

/-- Model of `NumeraiSignalGenerator.export_for_numerai`. The filesystem
is a map from path to file content, a written CSV being the list of its
(ticker, signal) rows. A raised `ValueError` is the `Except.error`
component; on that branch the filesystem is returned untouched. On
success the two-column frame `self.signals[['ticker', 'signal']].copy()`
is written at `output_path` and the path is returned. -/
def export_for_numerai {α : Type} [LinearOrderedField α]
    (signals : List (SignalRow α))
    (fs : String → Option (List (String × Option α))) (output_path : String) :
    (String → Option (List (String × Option α))) × Except String String :=
  if !(validate_signals signals).1 then
    (fs, .error "Signal validation failed")
  else
    (Function.update fs output_path (some (signals.map fun r => (r.ticker, r.signal))),
     .ok output_path)

/-- The state of a `NumeraiSignalGenerator` object: its only attribute
is `self.signals`, the generated table. -/
structure NumeraiSignalGenerator (α : Type) where
  signals : List (SignalRow α)

/-- Method view of `generate_from_analysis`: the one method that writes
`self.signals` (`self.signals = pd.DataFrame(signals)`) and returns it. -/
noncomputable def generate_from_analysis_method (g : NumeraiSignalGenerator ℝ)
    (news_sentiment : List (String × Except String ℝ))
    (fundamentals : String → Except String FundamentalsRec)
    (sec_insights : String → Except String SecRec) (now : String) :
    List (SignalRow ℝ) × NumeraiSignalGenerator ℝ :=
  (generate_from_analysis news_sentiment fundamentals sec_insights now,
   { g with signals := generate_from_analysis news_sentiment fundamentals sec_insights now })

/-- Method view of `validate_signals`: reads `self.signals`, assigns no
attribute; the second component is the object state the method leaves
behind. -/
def validate_signals_method {α : Type} [LinearOrderedField α]
    (g : NumeraiSignalGenerator α) :
    (Bool × Option String) × NumeraiSignalGenerator α :=
  (validate_signals g.signals, g)

/-- Method view of `export_for_numerai`: reads `self.signals`, writes the
file through a two-column copy, assigns no attribute. -/
def export_for_numerai_method {α : Type} [LinearOrderedField α]
    (g : NumeraiSignalGenerator α)
    (fs : String → Option (List (String × Option α))) (output_path : String) :
    ((String → Option (List (String × Option α))) × Except String String) ×
      NumeraiSignalGenerator α :=
  (export_for_numerai g.signals fs output_path, g)

lemma signal_between_01_iff {α : Type} [LinearOrderedField α] (o : Option α) :
    signal_between_01 o = true ↔ ∃ x, o = some x ∧ 0 ≤ x ∧ x ≤ 1 := by
  cases o <;> simp [signal_between_01]

/-- Claim C5 counterexample: a table whose only score is null is rejected
with the out-of-range message (pandas `between` treats the null as out of
range before the null check runs), the very message an out-of-range table
gets — so the null failure is not reported with a distinct message. -/
theorem validate_null_shares_range_message :
    validate_signals [({ ticker := "AAPL", signal := none, timestamp := "t0" } : SignalRow ℚ)]
      = (false, some "Signals outside valid range [0, 1]") ∧
    validate_signals [({ ticker := "AAPL", signal := some 2, timestamp := "t0" } : SignalRow ℚ)]
      = (false, some "Signals outside valid range [0, 1]") ∧
    (validate_signals [({ ticker := "AAPL", signal := none, timestamp := "t0" } : SignalRow ℚ)]).2
      ≠ some "Null values in signals" := by
  refine ⟨?_, ?_, ?_⟩ <;> decide

/-- Claim C5 (amended): validate returns false without raising for an
empty table, for any out-of-range score and for any null score, and true
exactly for nonempty tables whose scores are all non-null and in [0, 1];
the empty-table message is distinct, but a null score is caught by the
range check and reported with the out-of-range message (the null-specific
message is unreachable). -/
theorem validate_signals_characterization (signals : List (SignalRow ℚ)) :
    ((validate_signals signals).1 = true ↔
      signals ≠ [] ∧ ∀ r ∈ signals, ∃ x, r.signal = some x ∧ 0 ≤ x ∧ x ≤ 1) ∧
    (signals = [] → validate_signals signals = (false, some "No signals generated")) ∧
    (signals ≠ [] → (∃ r ∈ signals, r.signal = none) →
      (validate_signals signals).2 = some "Signals outside valid range [0, 1]") ∧
    (signals ≠ [] → (∃ r ∈ signals, ∃ x, r.signal = some x ∧ (x < 0 ∨ 1 < x)) →
      (validate_signals signals).2 = some "Signals outside valid range [0, 1]") := by
  rcases hs : signals.isEmpty with h | h
  case true =>
    rw [List.isEmpty_iff] at hs
    subst hs
    refine ⟨by simp [validate_signals], fun _ => rfl, ?_, ?_⟩ <;> simp
  case false =>
    rw [← Bool.not_eq_true, List.isEmpty_iff] at hs
    have hne : signals ≠ [] := hs
    by_cases hall : (signals.all fun r => signal_between_01 r.signal) = true
    · have hnonull : (signals.any fun r => r.signal.isNone) = false := by
        rw [Bool.eq_false_iff]
        intro hany
        rw [List.any_eq_true] at hany
        obtain ⟨r, hr, hnone⟩ := hany
        have := (List.all_eq_true.mp hall) r hr
        rw [signal_between_01_iff] at this
        obtain ⟨x, hx, -⟩ := this
        rw [hx] at hnone
        simp at hnone
      have hval : validate_signals signals = (true, none) := by
        unfold validate_signals
        rw [if_neg (by simpa [List.isEmpty_iff] using hne), hall, hnonull]
        simp
      refine ⟨?_, fun h => absurd h hne, ?_, ?_⟩
      · rw [hval]
        simp only [true_iff]
        refine ⟨hne, fun r hr => ?_⟩
        exact (signal_between_01_iff r.signal).mp ((List.all_eq_true.mp hall) r hr)
      · rintro - ⟨r, hr, hnone⟩
        have := (List.all_eq_true.mp hall) r hr
        rw [signal_between_01_iff] at this
        obtain ⟨x, hx, -⟩ := this
        rw [hnone] at hx
        exact absurd hx (by simp)
      · rintro - ⟨r, hr, x, hx, hout⟩
        have := (List.all_eq_true.mp hall) r hr
        rw [signal_between_01_iff] at this
        obtain ⟨y, hy, h0, h1⟩ := this
        rw [hx] at hy
        obtain rfl : x = y := by simpa using hy
        rcases hout with h | h
        · exact absurd h0 (not_le.mpr h)
        · exact absurd h1 (not_le.mpr h)
    · have hval : validate_signals signals
          = (false, some "Signals outside valid range [0, 1]") := by
        unfold validate_signals
        rw [if_neg (by simpa [List.isEmpty_iff] using hne)]
        rw [Bool.eq_false_iff.mpr hall]
        simp
      refine ⟨?_, fun h => absurd h hne, fun _ _ => by rw [hval], fun _ _ => by rw [hval]⟩
      rw [hval]
      refine iff_of_false (by simp) ?_
      rintro ⟨-, hforall⟩
      rw [List.all_eq_true] at hall
      push_neg at hall
      obtain ⟨r, hr, hb⟩ := hall
      obtain ⟨x, hx, h0, h1⟩ := hforall r hr
      exact hb ((signal_between_01_iff r.signal).mpr ⟨x, hx, h0, h1⟩)


theorem validate_signals_characterization_witness :
    (validate_signals [({ ticker := "AAPL", signal := some (1 : ℚ), timestamp := "t0" })]).1 = true ∧
    validate_signals ([] : List (SignalRow ℚ)) = (false, some "No signals generated") := by
  constructor
  · refine (validate_signals_characterization _).1.mpr ⟨by simp, ?_⟩
    intro r hr
    rw [List.mem_singleton] at hr
    subst hr
    exact ⟨1, rfl, by norm_num, by norm_num⟩
  · exact (validate_signals_characterization []).2.1 rfl

/-- Claim C4: export invokes validate first; on failure it raises
(surfacing `ValueError("Signal validation failed")`) and the filesystem
is untouched at every path, in particular the destination is neither
created nor modified; on success it returns the destination path, the
destination holds exactly the two-column rows (ticker, signal) in table
order, and no other path is touched. -/
theorem export_for_numerai_contract (signals : List (SignalRow ℚ))
    (fs : String → Option (List (String × Option ℚ))) (output_path : String) :
    ((validate_signals signals).1 = false →
      export_for_numerai signals fs output_path = (fs, .error "Signal validation failed")) ∧
    ((validate_signals signals).1 = true →
      (export_for_numerai signals fs output_path).2 = .ok output_path ∧
      (export_for_numerai signals fs output_path).1 output_path
        = some (signals.map fun r => (r.ticker, r.signal)) ∧
      ∀ p, p ≠ output_path → (export_for_numerai signals fs output_path).1 p = fs p) := by
  constructor
  · intro h
    unfold export_for_numerai
    rw [h]
    simp
  · intro h
    unfold export_for_numerai
    rw [h]
    refine ⟨rfl, ?_, ?_⟩
    · simp
    · intro p hp
      simp [Function.update_noteq hp]

/-- Concrete initially-empty filesystem for the export witnesses. -/
def c4_fs : String → Option (List (String × Option ℚ)) := fun _ => none

theorem export_for_numerai_contract_witness :
    export_for_numerai ([] : List (SignalRow ℚ)) c4_fs "signals.csv"
      = (c4_fs, .error "Signal validation failed") ∧
    (export_for_numerai [({ ticker := "AAPL", signal := some (1 : ℚ), timestamp := "t0" })]
        c4_fs "signals.csv").2 = .ok "signals.csv" ∧
    (export_for_numerai [({ ticker := "AAPL", signal := some (1 : ℚ), timestamp := "t0" })]
        c4_fs "signals.csv").1 "signals.csv" = some [("AAPL", some (1 : ℚ))] := by
  have h1 := (export_for_numerai_contract [] c4_fs "signals.csv").1 (by decide)
  have h2 := (export_for_numerai_contract
    [({ ticker := "AAPL", signal := some (1 : ℚ), timestamp := "t0" })]
    c4_fs "signals.csv").2 (by decide)
  exact ⟨h1, h2.1, by rw [h2.2.1]; simp⟩

/-- Claim C10: validating never mutates the stored signal table, and
exporting never mutates it either — the file content is computed from a
two-column copy of `self.signals`, which itself is left unchanged. -/
theorem validate_export_leave_signals_unchanged (g : NumeraiSignalGenerator ℚ)
    (fs : String → Option (List (String × Option ℚ))) (output_path : String) :
    (validate_signals_method g).2 = g ∧
    (export_for_numerai_method g fs output_path).2 = g ∧
    ((export_for_numerai_method g fs output_path).1.2 = .ok output_path →
      (export_for_numerai_method g fs output_path).1.1 output_path
        = some (g.signals.map fun r => (r.ticker, r.signal))) := by
  refine ⟨rfl, rfl, ?_⟩
  intro hok
  unfold export_for_numerai_method export_for_numerai at hok ⊢
  by_cases h : (validate_signals g.signals).1 = true
  · simp [h, Function.update_same]
  · rw [Bool.not_eq_true] at h
    simp [h] at hok

theorem validate_export_leave_signals_unchanged_witness :
    (validate_signals_method ({ signals := [] } : NumeraiSignalGenerator ℚ)).2
      = ({ signals := [] } : NumeraiSignalGenerator ℚ) ∧
    (export_for_numerai_method ({ signals := [] } : NumeraiSignalGenerator ℚ)
      c4_fs "signals.csv").2 = ({ signals := [] } : NumeraiSignalGenerator ℚ) := by
  have h := validate_export_leave_signals_unchanged ({ signals := [] }) c4_fs "signals.csv"
  exact ⟨h.1, h.2.1⟩

/-! ### Provider client: `src/data/perplexity_devkit.py` -/

/-- Model of Python string slicing `s[:n]`: the first `n` characters. -/
def pySlice (s : String) (n : Nat) : String := String.mk (s.data.take n)

/-- One entry of `perf_metrics["errors"]`. The two append sites build
dicts with slightly different key sets (`batch_market_news` adds a
timestamp, `fetch_sec_filings` adds a ticker); a key absent from a given
record is `none`. -/
structure ErrorRecord where
  type : String
  message : String
  timestamp : Option String
  ticker : Option String
deriving DecidableEq

/-- The `perf_metrics` dict initialized in
`PerplexityNumeraiDevKit.__init__` (the unused `total_tokens` counter is
omitted: no method ever reads or writes it). -/
structure PerfMetrics where
  total_requests : Nat
  avg_latency_ms : List ℚ
  errors : List ErrorRecord
deriving DecidableEq

/-- The `perf_metrics` state right after `__init__`. -/
def initPerfMetrics : PerfMetrics :=
  { total_requests := 0, avg_latency_ms := [], errors := [] }

/-- Model of `PerplexityNumeraiDevKit._record_metric`: bump the request
counter and append the latency sample (the operation tag is only
logged). -/
def record_metric (st : PerfMetrics) (requests : Nat) (latency_ms : ℚ)
    (operation : String) : PerfMetrics :=
  { st with total_requests := st.total_requests + requests,
            avg_latency_ms := st.avg_latency_ms ++ [latency_ms] }

/-- One provider search result object (fields the parser reads:
`title`, `url`, `snippet`, optionally `published_date`). -/
structure SearchResult where
  title : String
  url : String
  snippet : String
  published_date : Option String
deriving DecidableEq

/-- One parsed news dict. The batched branch of `_parse_batch_results`
emits all six keys; the flat branch emits only the first four, modelled
by `none` in the last two fields. -/
structure NewsItem where
  headline : String
  url : String
  summary : String
  source : String
  published_date : Option String
  timestamp : Option String
deriving DecidableEq

/-- Model of the static helper `_extract_domain`
(`urlparse(url).netloc`): the host segment between the scheme separator
and the next slash. -/
def extract_domain (url : String) : String :=
  (((url.splitOn "//").getD 1 "").splitOn "/").headD ""

/-- Python dict assignment `d[k] = v` on an insertion-ordered dict: an
existing key keeps its position and gets the new value, a new key is
appended. -/
def dict_set {α : Type} (d : List (String × α)) (k : String) (v : α) :
    List (String × α) :=
  if d.any fun p => decide (p.1 = k) then
    d.map fun p => if p.1 = k then (k, v) else p
  else d ++ [(k, v)]

/-- The news dict built from one batched result (the comprehension in
the `isinstance(..., list)` branch of `_parse_batch_results`). -/
def news_item_of (now : String) (r : SearchResult) : NewsItem :=
  { headline := r.title, url := r.url, summary := pySlice r.snippet 150,
    source := extract_domain r.url, published_date := r.published_date,
    timestamp := some now }

/-- The news dict built in the single-query (non-list) branch of
`_parse_batch_results`: no `published_date` and no `timestamp` key. -/
def news_item_flat (r : SearchResult) : NewsItem :=
  { headline := r.title, url := r.url, summary := pySlice r.snippet 150,
    source := extract_domain r.url, published_date := none, timestamp := none }

/-- Shape of `response.results` as inspected by `_parse_batch_results`
via `isinstance(response.results[0], list)`: an empty results list (the
index raises), a list of per-query batches, or a flat list of results. -/
inductive BatchResponse where
  | empty : BatchResponse
  | batched : List (List SearchResult) → BatchResponse
  | flat : List SearchResult → BatchResponse
deriving DecidableEq

/-- Model of `PerplexityNumeraiDevKit._parse_batch_results`. An
`IndexError` from `response.results[0]` (empty results) or from
`queries[i]` (more batches than queries) is an `Except.error`, which the
caller's `except` clause absorbs. -/
def parse_batch_results (resp : BatchResponse) (queries : List String)
    (now : String) : Except String (List (String × List NewsItem)) :=
  match resp with
  | .empty => .error "IndexError: list index out of range"
  | .batched batches =>
      if batches.length ≤ queries.length then
        .ok ((queries.zip batches).foldl
          (fun d p => dict_set d p.1 (p.2.map (news_item_of now))) [])
      else .error "IndexError: list index out of range"
  | .flat results =>
      match queries with
      | [] => .error "IndexError: list index out of range"
      | q :: _ => .ok [(q, results.map news_item_flat)]

/-- Observable outcome of one `batch_market_news` call: the returned
mapping, the `perf_metrics` state left behind, whether the truncation
warning was logged, and the query list actually sent to the provider. -/
structure BatchNewsOutcome where
  result : List (String × List NewsItem)
  state : PerfMetrics
  warned : Bool
  dispatched : List String
deriving DecidableEq

/-- The query-list truncation at the top of `batch_market_news`:
`if len(queries) > 5: queries = queries[:5]`. -/
def truncated_queries (queries : List String) : List String :=
  if 5 < queries.length then queries.take 5 else queries

/-- The shared `except Exception` clause of `batch_market_news`: log,
append one error record (with the raised message and a timestamp), and
return the empty dict; no metric is recorded on this path. -/
def batch_news_error_outcome (queries : List String) (st : PerfMetrics)
    (now : String) (e : String) : BatchNewsOutcome :=
  { result := [],
    state := { st with errors := st.errors ++
      [{ type := "batch_news", message := e, timestamp := some now,
         ticker := none }] },
    warned := decide (5 < queries.length),
    dispatched := truncated_queries queries }

/-- Model of `PerplexityNumeraiDevKit.batch_market_news`. The provider
call `self.client.search.create(...)` is the `search` parameter; a
raised transport exception is its `Except.error`. Over five queries the
list is truncated to the first five with a logged warning. The single
`try` block wraps the provider call and the parse: an exception from
either step reaches the same `except` clause. -/
def batch_market_news (search : List String → Except String BatchResponse)
    (queries : List String) (st : PerfMetrics) (now : String) (latency : ℚ) :
    BatchNewsOutcome :=
  match search (truncated_queries queries) with
  | .error e => batch_news_error_outcome queries st now e
  | .ok resp =>
      match parse_batch_results resp (truncated_queries queries) now with
      | .error e => batch_news_error_outcome queries st now e
      | .ok parsed =>
          { result := parsed,
            state := record_metric st (truncated_queries queries).length latency
              "news_batch",
            warned := decide (5 < queries.length),
            dispatched := truncated_queries queries }

/-- The filing object handed to `_extract_sec_metrics`: either the first
search result or the empty dict `{}`; every field access is through
`.get`/`getattr` with a default, so all fields are optional. -/
structure FilingResult where
  title : Option String
  url : Option String
  published_date : Option String
  snippet : Option String
deriving DecidableEq

/-- The dict returned by `_extract_sec_metrics`. -/
structure SecFiling where
  ticker : String
  filing_type : String
  company : String
  url : String
  filed_date : Option String
  snippet : String
deriving DecidableEq

/-- Model of `PerplexityNumeraiDevKit._extract_sec_metrics`: project the
filing result into the fixed key set, truncating the snippet to 500
characters. -/
def extract_sec_metrics (filing_result : FilingResult)
    (ticker filing_type : String) : SecFiling :=
  { ticker := ticker, filing_type := filing_type,
    company := filing_result.title.getD "",
    url := filing_result.url.getD "",
    filed_date := filing_result.published_date,
    snippet := pySlice (filing_result.snippet.getD "") 500 }

/-- The JSON object shape `extract_financial_metrics` asks the model
for; `json.loads` may return any subset of it, so every field is
optional. -/
structure FinancialMetrics where
  company : Option String
  pe_ratio : Option ℚ
  price_to_book : Option ℚ
  dividend_yield : Option ℚ
  week52_high : Option ℚ
  week52_low : Option ℚ
  market_cap_billions : Option ℚ
  revenue_growth_yoy : Option ℚ
  earnings_per_share : Option ℚ
  data_quality : Option ℚ
deriving DecidableEq

/-- The extraction prompt built by `extract_financial_metrics` (the
JSON example block is abbreviated to its opening; no claim depends on
the prompt text, only on it being a function of the two inputs). -/
def extract_prompt (company_name context_html : String) : String :=
  "Extract financial metrics for " ++ company_name ++ ":\n"
    ++ (if context_html = "" then "Search current data" else context_html)
    ++ "\n\nReturn ONLY valid JSON:\n\x7b\n  \"company\": \"" ++ company_name
    ++ "\", ...\x7d"

/-- Model of `PerplexityNumeraiDevKit.extract_financial_metrics`. The
chat call is the `chat` parameter (transport failure = `Except.error`);
`json.loads` on the returned content is the `json_loads` parameter
(parse failure = `Except.error`). Both failure modes fall into the same
`except` clause, which logs and returns the empty dict (`none`) with
`perf_metrics` untouched — no error record is appended here. -/
def extract_financial_metrics (chat : String → Except String String)
    (json_loads : String → Except String FinancialMetrics)
    (company_name context_html : String) (st : PerfMetrics) (latency : ℚ) :
    Option FinancialMetrics × PerfMetrics :=
  match (do
      let content ← chat (extract_prompt company_name context_html)
      json_loads content : Except String FinancialMetrics) with
  | .ok metrics => (some metrics, record_metric st 1 latency "extraction")
  | .error _ => (none, st)

/-- The dict returned by `get_health_metrics`. -/
structure HealthMetrics where
  total_requests : Nat
  avg_latency_ms : ℚ
  error_count : Nat
  uptime_hours : ℚ
  recent_errors : List ErrorRecord
deriving DecidableEq

/-- Model of `PerplexityNumeraiDevKit.get_health_metrics`: mean latency
(0 when no samples), total error count, and the last five error records
(`errors[-5:]`, hence in append order, most recent last). -/
def get_health_metrics (st : PerfMetrics) (uptime_hours : ℚ) : HealthMetrics :=
  { total_requests := st.total_requests,
    avg_latency_ms := if st.avg_latency_ms = [] then 0
      else st.avg_latency_ms.sum / (st.avg_latency_ms.length : ℚ),
    error_count := st.errors.length,
    uptime_hours := uptime_hours,
    recent_errors := st.errors.drop (st.errors.length - 5) }

/-- One telemetry-affecting event during the client's lifetime: a
`_record_metric` call or an inline `perf_metrics["errors"].append(...)`
at one of the two `except` sites. -/
inductive TelemetryOp where
  | metric (requests : Nat) (latency_ms : ℚ) (operation : String)
  | recorded (e : ErrorRecord)
deriving DecidableEq

/-- Apply one telemetry event to the `perf_metrics` state. -/
def apply_telemetry (st : PerfMetrics) : TelemetryOp → PerfMetrics
  | .metric requests latency_ms operation => record_metric st requests latency_ms operation
  | .recorded e => { st with errors := st.errors ++ [e] }

/-- Apply a sequence of telemetry events in order. -/
def apply_telemetry_ops (st : PerfMetrics) (ops : List TelemetryOp) : PerfMetrics :=
  ops.foldl apply_telemetry st

/-- Number of error-recording events in a sequence. -/
def count_error_ops (ops : List TelemetryOp) : Nat :=
  ops.countP fun op => match op with | .recorded _ => true | _ => false

/-! ### Theorems about the provider client -/

lemma pySlice_length_le (s : String) (n : Nat) : (pySlice s n).length ≤ n := by
  show (s.data.take n).length ≤ n
  rw [List.length_take]
  exact min_le_left _ _

lemma dict_set_forall {α : Type} (P : String × α → Prop) (d : List (String × α))
    (k : String) (v : α) (hd : ∀ p ∈ d, P p) (hkv : P (k, v)) :
    ∀ p ∈ dict_set d k v, P p := by
  intro p hp
  unfold dict_set at hp
  split at hp
  · rw [List.mem_map] at hp
    obtain ⟨q, hq, he⟩ := hp
    by_cases hqk : q.1 = k
    · rw [if_pos hqk] at he
      rw [← he]
      exact hkv
    · rw [if_neg hqk] at he
      rw [← he]
      exact hd q hq
  · rw [List.mem_append] at hp
    rcases hp with h | h
    · exact hd p h
    · rw [List.mem_singleton] at h
      rw [h]
      exact hkv

lemma foldl_dict_set_forall {γ : Type} (g : String × γ → List NewsItem)
    (l : List (String × γ)) (d : List (String × List NewsItem))
    (P : String × List NewsItem → Prop)
    (hd : ∀ p ∈ d, P p) (hins : ∀ p ∈ l, P (p.1, g p)) :
    ∀ p ∈ l.foldl (fun acc p => dict_set acc p.1 (g p)) d, P p := by
  induction l generalizing d with
  | nil => exact hd
  | cons a l ih =>
      rw [List.foldl_cons]
      exact ih _ (dict_set_forall P d a.1 (g a) hd (hins a (List.mem_cons_self _ _)))
        (fun p hp => hins p (List.mem_cons_of_mem _ hp))

lemma dict_set_of_not_mem {α : Type} (d : List (String × α)) (k : String) (v : α)
    (h : k ∉ d.map Prod.fst) : dict_set d k v = d ++ [(k, v)] := by
  unfold dict_set
  rw [if_neg]
  intro hany
  rw [List.any_eq_true] at hany
  obtain ⟨p, hp, hpk⟩ := hany
  exact h (List.mem_map.mpr ⟨p, hp, of_decide_eq_true hpk⟩)

lemma foldl_dict_set_eq {γ : Type} (g : String × γ → List NewsItem)
    (l : List (String × γ)) (d : List (String × List NewsItem))
    (hnd : (d.map Prod.fst ++ l.map Prod.fst).Nodup) :
    l.foldl (fun acc p => dict_set acc p.1 (g p)) d
      = d ++ l.map (fun p => (p.1, g p)) := by
  induction l generalizing d with
  | nil => simp
  | cons a l ih =>
      have hk : a.1 ∉ d.map Prod.fst := by
        intro hmem
        rcases List.nodup_append.mp hnd with ⟨-, -, hdisj⟩
        exact hdisj hmem (by simp)
      rw [List.foldl_cons, dict_set_of_not_mem d a.1 (g a) hk, ih, List.append_assoc]
      · simp
      · simpa [List.append_assoc] using hnd

lemma truncated_queries_of_gt (queries : List String) (h : 5 < queries.length) :
    truncated_queries queries = queries.take 5 := if_pos h

/-- Claim C3 counterexample: with a batch of three queries whose single
batched provider call raises a transport error, the returned mapping is
empty — the two sibling queries get no entries at all, rather than the
failed query alone mapping to an empty list with siblings populated.
Exactly one error record is appended. -/
theorem batch_failure_counterexample :
    (batch_market_news (fun _ => .error "transport error") ["q1", "q2", "q3"]
      initPerfMetrics "t0" 5).result = [] ∧
    "q2" ∉ ((batch_market_news (fun _ => .error "transport error") ["q1", "q2", "q3"]
      initPerfMetrics "t0" 5).result.map Prod.fst) ∧
    (batch_market_news (fun _ => .error "transport error") ["q1", "q2", "q3"]
      initPerfMetrics "t0" 5).state.errors.length = 1 := by
  refine ⟨rfl, ?_, rfl⟩
  decide

/-- Claim C3 (amended): failure of the single batched provider call is
handled at batch granularity, not per query: the whole result mapping is
returned empty (no key for any query, failed or sibling), exactly one
error record is appended, and no request count or latency sample is
recorded. -/
theorem batch_failure_is_batchwide (msg : String) (queries : List String)
    (st : PerfMetrics) (now : String) (latency : ℚ) :
    (batch_market_news (fun _ => .error msg) queries st now latency).result = [] ∧
    (batch_market_news (fun _ => .error msg) queries st now latency).state.errors
      = st.errors ++ [{ type := "batch_news", message := msg,
                        timestamp := some now, ticker := none }] ∧
    (batch_market_news (fun _ => .error msg) queries st now latency).state.total_requests
      = st.total_requests ∧
    (batch_market_news (fun _ => .error msg) queries st now latency).state.avg_latency_ms
      = st.avg_latency_ms :=
  ⟨rfl, rfl, rfl, rfl⟩

/-- Claim C6 counterexample: seven queries whose first five contain a
duplicate, against a provider that answers with one batch per dispatched
query: the truncation and warning happen, but the duplicate collapses
under dict assignment and the result mapping has four keys, not five. -/
theorem batch_five_keys_counterexample :
    (batch_market_news (fun _ => .ok (.batched [[], [], [], [], []]))
        ["a", "a", "b", "c", "d", "e", "f"] initPerfMetrics "t0" 1).warned = true ∧
    (batch_market_news (fun _ => .ok (.batched [[], [], [], [], []]))
        ["a", "a", "b", "c", "d", "e", "f"] initPerfMetrics "t0" 1).dispatched
      = ["a", "a", "b", "c", "d"] ∧
    ((batch_market_news (fun _ => .ok (.batched [[], [], [], [], []]))
        ["a", "a", "b", "c", "d", "e", "f"] initPerfMetrics "t0" 1).result.map
        Prod.fst).length = 4 := by
  refine ⟨?_, ?_, ?_⟩ <;> decide

/-- Claim C6 (amended): for a batch of more than five queries, exactly
the first five are dispatched and the truncation warning is recorded;
when the provider call succeeds with one result batch per dispatched
query and the first five queries are pairwise distinct, the result
mapping's keys are exactly those five queries (duplicates would collapse
into a single key, and a flat or failed response yields fewer keys). -/
theorem batch_truncates_to_first_five (queries : List String)
    (bs : List (List SearchResult))
    (search : List String → Except String BatchResponse)
    (st : PerfMetrics) (now : String) (latency : ℚ)
    (h7 : 5 < queries.length)
    (hsearch : search (queries.take 5) = .ok (.batched bs))
    (hlen : bs.length = 5)
    (hnd : (queries.take 5).Nodup) :
    (batch_market_news search queries st now latency).dispatched = queries.take 5 ∧
    (batch_market_news search queries st now latency).warned = true ∧
    (batch_market_news search queries st now latency).result.map Prod.fst
      = queries.take 5 ∧
    ((batch_market_news search queries st now latency).result.map Prod.fst).length
      = 5 := by
  have hq := truncated_queries_of_gt queries h7
  have hlen5 : (queries.take 5).length = 5 := by
    rw [List.length_take]
    omega
  have hble : bs.length ≤ (queries.take 5).length := by rw [hlen5, hlen]
  have hzip : ((queries.take 5).zip bs).map Prod.fst = queries.take 5 :=
    List.map_fst_zip _ _ (by rw [hlen5, hlen])
  have hparse : parse_batch_results (.batched bs) (queries.take 5) now
      = .ok (((queries.take 5).zip bs).foldl
          (fun d p => dict_set d p.1 (p.2.map (news_item_of now))) []) := by
    simp only [parse_batch_results]
    rw [if_pos hble]
  have hfold : ((queries.take 5).zip bs).foldl
      (fun d p => dict_set d p.1 (p.2.map (news_item_of now))) []
      = ((queries.take 5).zip bs).map (fun p => (p.1, p.2.map (news_item_of now))) := by
    have := foldl_dict_set_eq (fun p => p.2.map (news_item_of now))
      ((queries.take 5).zip bs) [] (by simpa [hzip] using hnd)
    simpa using this
  have hout : batch_market_news search queries st now latency
      = { result := ((queries.take 5).zip bs).map
            (fun p => (p.1, p.2.map (news_item_of now))),
          state := record_metric st (queries.take 5).length latency "news_batch",
          warned := decide (5 < queries.length),
          dispatched := queries.take 5 } := by
    simp only [batch_market_news, hq, hsearch, hparse, hfold]
  rw [hout]
  refine ⟨rfl, by simpa using h7, ?_, ?_⟩
  · simp only [List.map_map]
    have : (Prod.fst ∘ fun p : String × List SearchResult =>
        (p.1, p.2.map (news_item_of now))) = Prod.fst := rfl
    rw [this, hzip]
  · simp only [List.map_map]
    have : (Prod.fst ∘ fun p : String × List SearchResult =>
        (p.1, p.2.map (news_item_of now))) = Prod.fst := rfl
    rw [this, hzip, hlen5]

/-- Concrete seven-query batch for the truncation witness. -/
def c6_queries : List String := ["a", "b", "c", "d", "e", "f", "g"]

/-- Concrete provider answering one (empty) batch per dispatched query. -/
def c6_search : List String → Except String BatchResponse :=
  fun _ => .ok (.batched [[], [], [], [], []])

theorem batch_truncates_to_first_five_witness :
    (batch_market_news c6_search c6_queries initPerfMetrics "t0" 1).dispatched
      = ["a", "b", "c", "d", "e"] ∧
    ((batch_market_news c6_search c6_queries initPerfMetrics "t0" 1).result.map
      Prod.fst).length = 5 := by
  have h := batch_truncates_to_first_five c6_queries [[], [], [], [], []] c6_search
    initPerfMetrics "t0" 1 (by decide) rfl rfl (by decide)
  exact ⟨by rw [h.1]; rfl, h.2.2.2⟩

/-- Claim C7 counterexample: when the provider responds but the payload
fails to parse, the caller receives the bare empty result with telemetry
untouched — byte-for-byte the same value a pure transport failure
produces. No ParseFailure value, no truncated preview of the original
text and no reason reach the caller. -/
theorem extraction_no_parse_failure_value :
    extract_financial_metrics (fun _ => .ok "I am not JSON")
        (fun _ => .error "Expecting value: line 1 column 1 (char 0)")
        "AAPL" "" initPerfMetrics 5
      = extract_financial_metrics (fun _ => .error "transport error")
        (fun _ => .error "Expecting value: line 1 column 1 (char 0)")
        "AAPL" "" initPerfMetrics 5 ∧
    extract_financial_metrics (fun _ => .ok "I am not JSON")
        (fun _ => .error "Expecting value: line 1 column 1 (char 0)")
        "AAPL" "" initPerfMetrics 5
      = (none, initPerfMetrics) :=
  ⟨rfl, rfl⟩

/-- Claim C7 (amended): on parse failure (as on transport failure) the
metric-extraction path logs the exception and returns the empty mapping
with `perf_metrics` unchanged; no ParseFailure value carrying the
original text is constructed or propagated, and no error record is
appended. -/
theorem extraction_returns_empty_on_failure
    (chat : String → Except String String)
    (json_loads : String → Except String FinancialMetrics)
    (company_name context_html : String) (st : PerfMetrics) (latency : ℚ)
    (msg : String)
    (h : (do
        let content ← chat (extract_prompt company_name context_html)
        json_loads content : Except String FinancialMetrics) = .error msg) :
    extract_financial_metrics chat json_loads company_name context_html st latency
      = (none, st) := by
  unfold extract_financial_metrics
  rw [h]

theorem extraction_returns_empty_on_failure_witness :
    extract_financial_metrics (fun _ => .ok "The PE ratio of AAPL is about 28.5")
      (fun _ => .error "Expecting value: line 1 column 1 (char 0)")
      "AAPL" "" initPerfMetrics 5 = (none, initPerfMetrics) :=
  extraction_returns_empty_on_failure _ _ "AAPL" "" initPerfMetrics 5 _ rfl

lemma errors_apply_telemetry_ops (ops : List TelemetryOp) (st : PerfMetrics) :
    (apply_telemetry_ops st ops).errors
      = st.errors ++ ops.filterMap
          (fun op => match op with | .recorded e => some e | _ => none) := by
  induction ops generalizing st with
  | nil => simp [apply_telemetry_ops]
  | cons op ops ih =>
      unfold apply_telemetry_ops at ih ⊢
      rw [List.foldl_cons, ih]
      cases op with
      | metric requests latency_ms operation => simp [apply_telemetry, record_metric]
      | recorded e => simp [apply_telemetry]

lemma filterMap_recorded_length (ops : List TelemetryOp) :
    (ops.filterMap
      (fun op => match op with | .recorded e => some e | _ => none)).length
      = count_error_ops ops := by
  induction ops with
  | nil => rfl
  | cons op ops ih =>
      cases op with
      | metric requests latency_ms operation =>
          simpa [count_error_ops, List.countP_cons] using ih
      | recorded e =>
          simpa [count_error_ops, List.countP_cons] using ih

/-- Claim C8: starting from a fresh client, after any sequence of
metric-recording and error-recording events the health snapshot's error
count never exceeds the number of error-recording events (indeed it
equals it, in particular when fewer than the five-entry bound have
occurred), and the recent-errors list has at most five entries and is a
suffix of the append-ordered error log — most recent last. -/
theorem health_error_count_bounds (ops : List TelemetryOp) (uptime_hours : ℚ) :
    (get_health_metrics (apply_telemetry_ops initPerfMetrics ops) uptime_hours).error_count
      ≤ count_error_ops ops ∧
    (count_error_ops ops < 5 →
      (get_health_metrics (apply_telemetry_ops initPerfMetrics ops) uptime_hours).error_count
        = count_error_ops ops) ∧
    (get_health_metrics (apply_telemetry_ops initPerfMetrics ops) uptime_hours).recent_errors.length
      ≤ 5 ∧
    (get_health_metrics (apply_telemetry_ops initPerfMetrics ops) uptime_hours).recent_errors
      <:+ (apply_telemetry_ops initPerfMetrics ops).errors := by
  have hcount : (get_health_metrics (apply_telemetry_ops initPerfMetrics ops)
      uptime_hours).error_count = count_error_ops ops := by
    show (apply_telemetry_ops initPerfMetrics ops).errors.length = count_error_ops ops
    rw [errors_apply_telemetry_ops]
    simpa [initPerfMetrics] using filterMap_recorded_length ops
  refine ⟨le_of_eq hcount, fun _ => hcount, ?_, ?_⟩
  · show ((apply_telemetry_ops initPerfMetrics ops).errors.drop
      ((apply_telemetry_ops initPerfMetrics ops).errors.length - 5)).length ≤ 5
    rw [List.length_drop]
    omega
  · exact List.drop_suffix _ _

/-- Concrete telemetry history for the health-metrics witness: two
error-recording events around one metric event. -/
def c8_ops : List TelemetryOp :=
  [.recorded { type := "batch_news", message := "boom",
               timestamp := some "t1", ticker := none },
   .metric 2 5 "news_batch",
   .recorded { type := "sec_filing", message := "bust",
               timestamp := none, ticker := some "AAPL" }]

theorem health_error_count_bounds_witness :
    (get_health_metrics (apply_telemetry_ops initPerfMetrics c8_ops) 1).error_count = 2 ∧
    (get_health_metrics (apply_telemetry_ops initPerfMetrics c8_ops) 1).recent_errors.length
      ≤ 5 :=
  ⟨(health_error_count_bounds c8_ops 1).2.1 (by decide),
   (health_error_count_bounds c8_ops 1).2.2.1⟩

/-- Claim C9: every news item either branch of the batch parser emits
has a summary of at most 150 characters, and every filing record the
SEC-metrics extractor emits has a snippet of at most 500 characters,
whatever the provider response. -/
theorem summary_and_snippet_bounded :
    (∀ (resp : BatchResponse) (queries : List String) (now : String)
        (d : List (String × List NewsItem)),
      parse_batch_results resp queries now = .ok d →
      ∀ q items, (q, items) ∈ d → ∀ item ∈ items, item.summary.length ≤ 150) ∧
    (∀ (filing_result : FilingResult) (ticker filing_type : String),
      (extract_sec_metrics filing_result ticker filing_type).snippet.length ≤ 500) := by
  constructor
  · intro resp queries now d hparse q items hmem item hitem
    cases resp with
    | empty => exact absurd hparse (by simp [parse_batch_results])
    | batched batches =>
        simp only [parse_batch_results] at hparse
        split at hparse
        · have hd := Except.ok.inj hparse
          have hall := foldl_dict_set_forall
            (fun p => p.2.map (news_item_of now)) (queries.zip batches) []
            (fun p => ∀ item ∈ p.2, item.summary.length ≤ 150)
            (by simp)
            (by
              rintro p - item hitem
              rw [List.mem_map] at hitem
              obtain ⟨r, -, hr⟩ := hitem
              rw [← hr]
              exact pySlice_length_le r.snippet 150)
          rw [hd] at hall
          exact hall (q, items) hmem item hitem
        · exact absurd hparse (by simp)
    | flat results =>
        cases queries with
        | nil => exact absurd hparse (by simp [parse_batch_results])
        | cons q0 qs =>
            simp only [parse_batch_results] at hparse
            have hd := Except.ok.inj hparse
            rw [← hd, List.mem_singleton] at hmem
            injection hmem with hq hitems
            rw [hitems] at hitem
            rw [List.mem_map] at hitem
            obtain ⟨r, -, hr⟩ := hitem
            rw [← hr]
            exact pySlice_length_le r.snippet 150
  · intro filing_result ticker filing_type
    exact pySlice_length_le (filing_result.snippet.getD "") 500

/-- Concrete search result with an over-length snippet for the bound
witness. -/
def c9_result : SearchResult :=
  { title := "headline", url := "https://cnbc.com/a",
    snippet := String.mk (List.replicate 200 'a'), published_date := none }

/-- Concrete filing result with an over-length snippet for the bound
witness. -/
def c9_filing : FilingResult :=
  { title := some "AAPL 10-K", url := some "https://sec.gov/x",
    published_date := none, snippet := some (String.mk (List.replicate 600 'b')) }

theorem summary_and_snippet_bounded_witness :
    (news_item_flat c9_result).summary.length ≤ 150 ∧
    (extract_sec_metrics c9_filing "AAPL" "10-K").snippet.length ≤ 500 :=
  ⟨summary_and_snippet_bounded.1 (.flat [c9_result]) ["q"] "now"
      [("q", [news_item_flat c9_result])] rfl "q" [news_item_flat c9_result]
      (List.mem_singleton.mpr rfl) (news_item_flat c9_result)
      (List.mem_singleton.mpr rfl),
   summary_and_snippet_bounded.2 c9_filing "AAPL" "10-K"⟩

end Numerai
